/-
Verification of the ContextOS backend against its natural-language
specification.  Each section shallowly embeds one service of
`src/backend/app` in Lean: pure Python functions become Lean functions,
stateful services become explicit state passing, external boundaries
(database driver, embedding model, native vector index, tokenizer,
SHA-256) become function parameters, and fallible code returns `Except`.
-/
import Mathlib

set_option autoImplicit false

namespace ContextOS

/-! ## Python string primitives

Helpers mirroring the Python `str` operations the services use:
`upper`/`lower` (per-character case mapping), `strip` (trim
whitespace at both ends), substring containment (`in`), and
`startswith`. They operate on the character list of the string. -/

/-- Python `\s` / `str.strip` whitespace characters (ASCII range). -/
def isPyWs (c : Char) : Bool :=
  c = ' ' || c = '\t' || c = '\n' || c = '\r' || c = '\x0b' || c = '\x0c'

/-- Python `str.upper` (ASCII case mapping, as used on SQL text). -/
def pyUpper (s : String) : String :=
  String.mk (s.data.map Char.toUpper)

/-- Python `str.lower` (ASCII case mapping). -/
def pyLower (s : String) : String :=
  String.mk (s.data.map Char.toLower)

/-- Python `str.strip()`: drop leading and trailing whitespace. -/
def pyStrip (s : String) : String :=
  String.mk (((s.data.dropWhile isPyWs).reverse.dropWhile isPyWs).reverse)

/-- `needle` occurs as a contiguous sublist of `hay`. -/
def listContains (needle : List Char) : List Char → Bool
  | [] => needle.isPrefixOf []
  | c :: rest => needle.isPrefixOf (c :: rest) || listContains needle rest

/-- Python `needle in hay` on strings. -/
def containsStr (hay needle : String) : Bool :=
  listContains needle.data hay.data

/-- Python `hay.startswith(pre)`. -/
def pyStartsWith (hay pre : String) : Bool :=
  pre.data.isPrefixOf hay.data

/-! ## Safe SQL executor (`app/services/safe_sql.py`)

`SafeSQLExecutor.validate_query` upper-cases and strips the statement,
requires a `SELECT` head, scans a fixed denylist of regular-expression
patterns (unanchored search, `re.IGNORECASE`), and bounds the length.
The denylist uses only three regex constructs: literal text, `\s+`
(one-or-more whitespace) and a trailing `.*`; this grammar is embedded
as `Pat`. -/

namespace SafeSQL

/-- The fragment of regular expressions used by `DISALLOWED_PATTERNS`:
literal text, `\s+`, and `.*` at the end of a pattern. -/
inductive Pat where
  | done : Pat
  | lit : String → Pat → Pat
  | ws : Pat → Pat
  | anyStar : Pat
deriving DecidableEq

/-- Match a pattern against the beginning of `cs`.  `\s+` consumes some
nonempty prefix of the leading whitespace run (every choice is tried,
as a backtracking regex engine would). -/
def matchPat : Pat → List Char → Bool
  | .done, _ => true
  | .anyStar, _ => true
  | .lit s p, cs => s.data.isPrefixOf cs && matchPat p (cs.drop s.data.length)
  | .ws p, cs =>
    let k := (cs.takeWhile isPyWs).length
    (List.range k).any (fun i => matchPat p (cs.drop (i + 1)))

/-- Unanchored search (Python `re.search`): try to match at every
position of the haystack. -/
def searchPat (p : Pat) : List Char → Bool
  | [] => matchPat p []
  | c :: rest => matchPat p (c :: rest) || searchPat p rest

/-- `SafeSQLExecutor.DISALLOWED_PATTERNS`, each paired with its source
text (used in the error message).  Matching is performed with
`re.IGNORECASE` against the upper-cased query, so letter literals are
embedded upper-cased. -/
def DISALLOWED_PATTERNS : List (String × Pat) :=
  [ ("INSERT\\s+INTO", .lit "INSERT" (.ws (.lit "INTO" .done))),
    ("UPDATE\\s+", .lit "UPDATE" (.ws .done)),
    ("DELETE\\s+FROM", .lit "DELETE" (.ws (.lit "FROM" .done))),
    ("DROP\\s+", .lit "DROP" (.ws .done)),
    ("CREATE\\s+", .lit "CREATE" (.ws .done)),
    ("ALTER\\s+", .lit "ALTER" (.ws .done)),
    ("TRUNCATE\\s+", .lit "TRUNCATE" (.ws .done)),
    ("EXEC", .lit "EXEC" .done),
    ("EXECUTE", .lit "EXECUTE" .done),
    ("xp_", .lit "XP_" .done),
    ("sp_", .lit "SP_" .done),
    ("--", .lit "--" .done),
    (";.*", .lit ";" .anyStar),
    ("UNION", .lit "UNION" .done) ]

/-- `SafeSQLExecutor.validate_query`: returns `(is_valid, error_message)`. -/
def validate_query (query : String) : Bool × Option String :=
  let query_upper := pyStrip (pyUpper query)
  if ¬ pyStartsWith query_upper "SELECT" then
    (false, some "Only SELECT queries are allowed")
  else
    match DISALLOWED_PATTERNS.find? (fun pr => searchPat pr.2 query_upper.data) with
    | some pr => (false, some ("Disallowed SQL pattern detected: " ++ pr.1))
    | none =>
      if query.data.length > 2000 then
        (false, some "Query too long (max 2000 characters)")
      else
        (true, none)

/-- Result rows of a SQL statement: ordered column-name/value maps. -/
abbrev Rows := List (List (String × String))

/-- The database boundary of `execute_query`: the statements actually
sent to the database so far (a validation failure must leave it
unchanged — the statement is "never sent to the database"). -/
structure DbState where
  executed : List String
deriving DecidableEq

/-- `SafeSQLExecutor.execute_query`.  `oracle` stands for the database
driver's reply to a statement.  Validation failure raises
(`ValidationException`) before the statement reaches the database;
a driver-level failure is re-wrapped as a validation error. -/
def execute_query (oracle : String → Except String Rows) (db : DbState)
    (query : String) : Except String Rows × DbState :=
  match validate_query query with
  | (false, err) => (.error ("Unsafe query: " ++ err.getD ""), db)
  | (true, _) =>
    let db' : DbState := { executed := db.executed ++ [query] }
    match oracle query with
    | .ok rows => (.ok rows, db')
    | .error e => (.error ("Query execution failed: " ++ e), db')

end SafeSQL

/-- C1: the safe SQL executor validates before execution: `"SELECT 1"`
is accepted, while `"DROP TABLE document"`, `"SELECT 1; DELETE FROM
document"` and `"SELECT 1 UNION SELECT password FROM users"` each fail
validation; and for every statement failing validation,
`execute_query` raises a validation error and leaves the database
untouched (the statement is never sent to the database). -/
theorem c1_safe_sql_validation :
    (SafeSQL.validate_query "SELECT 1").1 = true ∧
    (SafeSQL.validate_query "DROP TABLE document").1 = false ∧
    (SafeSQL.validate_query "SELECT 1; DELETE FROM document").1 = false ∧
    (SafeSQL.validate_query "SELECT 1 UNION SELECT password FROM users").1 = false ∧
    (∀ (oracle : String → Except String SafeSQL.Rows) (db : SafeSQL.DbState) (q : String),
      (SafeSQL.validate_query q).1 = false →
        (∃ e, (SafeSQL.execute_query oracle db q).1 = .error e) ∧
        (SafeSQL.execute_query oracle db q).2 = db) := by
  refine ⟨by decide, by decide, by decide, by decide, ?_⟩
  intro oracle db q h
  cases hv : SafeSQL.validate_query q with
  | mk b err =>
    rw [hv] at h
    simp only at h
    subst h
    simp [SafeSQL.execute_query, hv]

/-- Witness for C1: applying the quantified part at
`"DROP TABLE document"` with a concrete oracle and database. -/
theorem c1_safe_sql_validation_witness :
    (∃ e, (SafeSQL.execute_query (fun _ => .ok []) ⟨[]⟩ "DROP TABLE document").1 = .error e) ∧
    (SafeSQL.execute_query (fun _ => .ok []) ⟨[]⟩ "DROP TABLE document").2 = ⟨[]⟩ :=
  c1_safe_sql_validation.2.2.2.2 (fun _ => .ok []) ⟨[]⟩ "DROP TABLE document" (by decide)

/-- C10: the denylist patterns are matched as unanchored substrings of
the upper-cased statement, so the harmless read-only statement
`"SELECT resp_id FROM document"` — whose identifier `resp_id` contains
the substring `sp_` — is reported invalid by `validate_query`, although
it starts with `SELECT` and contains no statement separator, comment,
`UNION` or `EXEC`; `execute_query` consequently raises a validation
error for it without sending it to the database. -/
theorem c10_denylist_overmatches_select :
    SafeSQL.validate_query "SELECT resp_id FROM document" =
      (false, some "Disallowed SQL pattern detected: sp_") ∧
    pyStartsWith (pyStrip (pyUpper "SELECT resp_id FROM document")) "SELECT" = true ∧
    containsStr (pyUpper "SELECT resp_id FROM document") ";" = false ∧
    containsStr (pyUpper "SELECT resp_id FROM document") "--" = false ∧
    containsStr (pyUpper "SELECT resp_id FROM document") "UNION" = false ∧
    containsStr (pyUpper "SELECT resp_id FROM document") "EXEC" = false ∧
    (SafeSQL.execute_query (fun _ => .ok []) ⟨[]⟩ "SELECT resp_id FROM document").1 =
      .error "Unsafe query: Disallowed SQL pattern detected: sp_" ∧
    (SafeSQL.execute_query (fun _ => .ok []) ⟨[]⟩ "SELECT resp_id FROM document").2 = ⟨[]⟩ := by
  refine ⟨by decide, by decide, by decide, by decide, by decide, by decide, ?_, by decide⟩
  rfl

/-! ## Query cache (`app/core/cache.py`)

`QueryCache._generate_key` normalizes the query (`strip`, `lower`),
merges it with the keyword parameters under the key `"query"`
(Python dict semantics: a later binding for the same key overrides),
serializes with `json.dumps(..., sort_keys=True)` and hashes the
resulting string with SHA-256.  SHA-256 is a function, so equal
serializations give equal keys; it is embedded as an abstract
function parameter `hash`.  The underlying `TTLCache` is modelled as
an association list (newest binding first, as `cache[key] = value`
overrides): the claim is scoped to reads within the TTL with no
eviction, which the in-window `TTLCache` behaves as. -/

namespace Cache

/-- A JSON-serializable keyword-parameter value (the parameters the
services pass are numbers and strings). -/
inductive PVal where
  | nat : Nat → PVal
  | str : String → PVal
deriving DecidableEq

/-- JSON serialization of one value, as `json.dumps` renders it. -/
def serialVal : PVal → String
  | .nat n => toString n
  | .str s => "\"" ++ s ++ "\""

/-- Bind `k` to `v` in an association list, Python-dict style
(replace an existing binding, else append). -/
def setKey (l : List (String × PVal)) (k : String) (v : PVal) : List (String × PVal) :=
  if l.any (fun kv => kv.1 = k) then
    l.map (fun kv => if kv.1 = k then (k, v) else kv)
  else
    l ++ [(k, v)]

/-- Lexicographic codepoint order on character lists (the order Python
compares strings with). -/
def charsLt : List Char → List Char → Bool
  | [], [] => false
  | [], _ :: _ => true
  | _ :: _, [] => false
  | c :: cs, d :: ds => c.toNat < d.toNat || (c = d && charsLt cs ds)

/-- Python string `<`. -/
def strLt (a b : String) : Bool := charsLt a.data b.data

/-- Insert into a list sorted by key (string order). -/
def insertSorted (p : String × PVal) : List (String × PVal) → List (String × PVal)
  | [] => [p]
  | q :: rest => if strLt p.1 q.1 then p :: q :: rest else q :: insertSorted p rest

/-- Sort an association list by key, as `json.dumps(..., sort_keys=True)`
orders the members of an object. -/
def sortByKey (l : List (String × PVal)) : List (String × PVal) :=
  l.foldl (fun acc p => insertSorted p acc) []

/-- The dict `{'query': query.strip().lower(), **sorted(kwargs.items())}`. -/
def keyData (query : String) (kwargs : List (String × PVal)) : List (String × PVal) :=
  kwargs.foldl (fun acc kv => setKey acc kv.1 kv.2)
    [("query", .str (pyLower (pyStrip query)))]

/-- `json.dumps(key_data, sort_keys=True)`. -/
def jsonDumps (l : List (String × PVal)) : String :=
  "\x7b" ++ String.intercalate ", "
    ((sortByKey l).map (fun kv => "\"" ++ kv.1 ++ "\": " ++ serialVal kv.2))
    ++ "\x7d"

/-- `QueryCache._generate_key`: hash of the sorted-key serialization of
the normalized query plus parameters.  `hash` stands for hex-encoded
SHA-256. -/
def generate_key (hash : String → String) (query : String)
    (kwargs : List (String × PVal)) : String :=
  hash (jsonDumps (keyData query kwargs))

/-- `QueryCache` state: entries (newest binding first) and the
hit/miss/set statistics counters. -/
structure QueryCache (V : Type) where
  entries : List (String × V)
  hits : Nat
  misses : Nat
  sets : Nat

/-- `QueryCache.set`: store a result under the derived key. -/
def cacheSet {V : Type} (hash : String → String) (c : QueryCache V)
    (query : String) (result : V) (kwargs : List (String × PVal)) : QueryCache V :=
  { c with
    entries := (generate_key hash query kwargs, result) :: c.entries,
    sets := c.sets + 1 }

/-- `QueryCache.get`: look up the derived key, updating the hit/miss
counters. -/
def cacheGet {V : Type} (hash : String → String) (c : QueryCache V)
    (query : String) (kwargs : List (String × PVal)) : Option V × QueryCache V :=
  match c.entries.lookup (generate_key hash query kwargs) with
  | some v => (some v, { c with hits := c.hits + 1 })
  | none => (none, { c with misses := c.misses + 1 })

end Cache

/-- C5: the cache key derivation is invariant under query trimming,
query lower-casing and keyword-parameter order: both calls derive the
same serialization (hence the same SHA-256 key), so for every value
`v`, `get("Hello", top_k=5, history_count=0)` right after
`set("hello ", v, history_count=0, top_k=5)` returns `v`. -/
theorem c5_cache_key_normalization {V : Type} (hash : String → String)
    (c : Cache.QueryCache V) (v : V) :
    Cache.generate_key hash "hello "
        [("history_count", .nat 0), ("top_k", .nat 5)] =
      Cache.generate_key hash "Hello"
        [("top_k", .nat 5), ("history_count", .nat 0)] ∧
    (Cache.cacheGet hash
        (Cache.cacheSet hash c "hello " v
          [("history_count", .nat 0), ("top_k", .nat 5)])
        "Hello" [("top_k", .nat 5), ("history_count", .nat 0)]).1 = some v := by
  have hk : Cache.generate_key hash "hello "
        [("history_count", .nat 0), ("top_k", .nat 5)] =
      Cache.generate_key hash "Hello"
        [("top_k", .nat 5), ("history_count", .nat 0)] :=
    congrArg hash (by decide)
  refine ⟨hk, ?_⟩
  simp [Cache.cacheGet, Cache.cacheSet, List.lookup, ← hk]

/-! ## Rule-based RAG agent (`app/services/agent/rag_agent.py`, `base.py`)

`RAGAgent.decide` is a pure function of the `AgentContext`: if
retrieved context is already present it answers directly; otherwise it
lower-cases the query and walks the four keyword families in insertion
order (`search`, `sources`, `stats`, `task`), the first family with a
matching substring determining the decision; with no match it decides
to perform a knowledge-base search with the raw query. -/

namespace Agent

/-- `ActionType` (`base.py`). -/
inductive ActionType where
  | answer
  | call_tool
  | search
  | clarify
deriving DecidableEq

/-- A tool-argument value (`tool_arguments: Dict[str, Any]`; the
rule-based agent only ever passes strings and integers). -/
inductive ArgVal where
  | str : String → ArgVal
  | nat : Nat → ArgVal
deriving DecidableEq

/-- `AgentContext` (`base.py`).  `conversation_history` entries are
string-to-string maps and `retrieved_context` items are free-form maps;
`decide` only ever tests `retrieved_context` for emptiness. -/
structure AgentContext where
  user_query : String
  conversation_history : List (List (String × String)) := []
  retrieved_context : List (List (String × String)) := []
  available_tools : List String := []
deriving DecidableEq

/-- `AgentDecision` (`base.py`). -/
structure AgentDecision where
  action : ActionType
  reasoning : String
  tool_name : Option String := none
  tool_arguments : Option (List (String × ArgVal)) := none
  response : Option String := none
  requires_context : Bool := false
  context_query : Option String := none
deriving DecidableEq

/-- The `action_keywords` dict of `RAGAgent.decide`, in insertion
order (the order a Python `dict` iterates in). -/
def action_keywords : List (String × List String) :=
  [ ("search", ["search", "find", "look for", "show me", "what is", "how to", "tell me about"]),
    ("sources", ["sources", "available", "what data", "list documents", "what documents"]),
    ("stats", ["stats", "statistics", "how many", "count", "status", "health"]),
    ("task", ["create", "start", "run", "execute", "process"]) ]

/-- `RAGAgent.decide`. -/
def decide (context : AgentContext) : AgentDecision :=
  let query := pyLower context.user_query
  match context.retrieved_context with
  | _ :: _ =>
    { action := .answer,
      reasoning := "Context already provided, can answer directly",
      response := none,
      requires_context := false }
  | [] =>
    match action_keywords.find? (fun ak => ak.2.any (fun kw => containsStr query kw)) with
    | some ak =>
      if ak.1 = "search" then
        { action := .call_tool,
          reasoning := "User query requires searching the knowledge base",
          tool_name := some "search_documents",
          tool_arguments := some [("query", .str context.user_query), ("top_k", .nat 5)] }
      else if ak.1 = "sources" then
        { action := .call_tool,
          reasoning := "User wants to know about available sources",
          tool_name := some "get_sources",
          tool_arguments := some [] }
      else if ak.1 = "stats" then
        { action := .call_tool,
          reasoning := "User wants system statistics",
          tool_name := some "get_stats",
          tool_arguments := some [] }
      else
        { action := .clarify,
          reasoning := "Need more details about the task to create",
          response := some "What type of task would you like me to create? Please provide details." }
    | none =>
      { action := .search,
        reasoning := "Query requires context from knowledge base",
        requires_context := true,
        context_query := some context.user_query }

end Agent

/-- C6: with no pre-existing retrieved context, the keyword families
are tested in the fixed order search → sources → stats → task, the
first match winning: any query whose lower-casing contains a
search-family keyword routes to the `search_documents` tool; the query
`"how many documents"` routes to `get_stats`; `"search for refund
policy"` routes to `search_documents` with the raw query and top_k=5;
`"create a backup"` routes to clarify (task creation is never
auto-dispatched); and the keyword-free query `"weather in paris
tomorrow"` routes to the context-retrieval search with the raw
query. -/
theorem c6_rag_agent_decision_table (ctx : Agent.AgentContext)
    (h : ctx.retrieved_context = []) :
    (∀ kw ∈ (Agent.action_keywords.head?.getD ("", [])).2,
      containsStr (pyLower ctx.user_query) kw = true →
        (Agent.decide ctx).action = .call_tool ∧
        (Agent.decide ctx).tool_name = some "search_documents") ∧
    (ctx.user_query = "how many documents" →
      Agent.decide ctx =
        { action := .call_tool,
          reasoning := "User wants system statistics",
          tool_name := some "get_stats",
          tool_arguments := some [] }) ∧
    (ctx.user_query = "search for refund policy" →
      Agent.decide ctx =
        { action := .call_tool,
          reasoning := "User query requires searching the knowledge base",
          tool_name := some "search_documents",
          tool_arguments := some [("query", .str "search for refund policy"), ("top_k", .nat 5)] }) ∧
    (ctx.user_query = "create a backup" →
      Agent.decide ctx =
        { action := .clarify,
          reasoning := "Need more details about the task to create",
          response := some "What type of task would you like me to create? Please provide details." }) ∧
    (ctx.user_query = "weather in paris tomorrow" →
      Agent.decide ctx =
        { action := .search,
          reasoning := "Query requires context from knowledge base",
          requires_context := true,
          context_query := some "weather in paris tomorrow" }) := by
  obtain ⟨q, ch, rc, av⟩ := ctx
  simp only at h
  subst h
  refine ⟨?_, ?_, ?_, ?_, ?_⟩
  · intro kw hkw hc
    simp only [Agent.action_keywords, List.head?, Option.getD] at hkw
    have hfind :
        Agent.action_keywords.find?
          (fun ak => ak.2.any (fun kw => containsStr (pyLower q) kw)) =
        some ("search", ["search", "find", "look for", "show me", "what is", "how to", "tell me about"]) := by
      simp only [Agent.action_keywords, List.find?]
      have : (["search", "find", "look for", "show me", "what is", "how to",
          "tell me about"].any (fun kw => containsStr (pyLower q) kw)) = true := by
        simp only [List.any_eq_true]
        exact ⟨kw, hkw, hc⟩
      rw [this]
    simp [Agent.decide, hfind]
  · rintro rfl; rfl
  · rintro rfl; rfl
  · rintro rfl; rfl
  · rintro rfl; rfl

/-- Witness for C6: the decision table applied at the four concrete
queries (and the first-family rule at `"search for refund policy"`). -/
theorem c6_rag_agent_decision_table_witness :
    (Agent.decide { user_query := "how many documents" }).tool_name = some "get_stats" ∧
    (Agent.decide { user_query := "search for refund policy" }).tool_name = some "search_documents" ∧
    (Agent.decide { user_query := "create a backup" }).action = .clarify ∧
    (Agent.decide { user_query := "weather in paris tomorrow" }).action = .search ∧
    (Agent.decide { user_query := "search for refund policy" }).action = .call_tool := by
  have h1 := (c6_rag_agent_decision_table { user_query := "how many documents" } rfl).2.1 rfl
  have h2 := (c6_rag_agent_decision_table { user_query := "search for refund policy" } rfl).2.2.1 rfl
  have h3 := (c6_rag_agent_decision_table { user_query := "create a backup" } rfl).2.2.2.1 rfl
  have h4 := (c6_rag_agent_decision_table { user_query := "weather in paris tomorrow" } rfl).2.2.2.2 rfl
  have h5 := (c6_rag_agent_decision_table { user_query := "search for refund policy" } rfl).1
    "search" (by decide) (by decide)
  exact ⟨by rw [h1], by rw [h2], by rw [h3], by rw [h4], h5.1⟩

/-! ## Mocked issue tracker (`app/services/mock_services.py`, `MockJiraService`)

State: the insertion-ordered ticket map, seeded with three fixture
tickets.  `create_ticket` assigns `PROJ-{len(tickets) + 101}`;
`search_tickets` applies a case-insensitive substring text filter and
whole-string case-insensitive status/priority filters in sequence
(each filter skipped when its argument is `None` or empty, matching
Python truthiness). -/

namespace Jira

/-- A Jira ticket record. -/
structure Ticket where
  id : String
  title : String
  description : String
  status : String
  priority : String
  assignee : Option String
  reporter : String
  created : String
  updated : String
deriving DecidableEq

/-- The mock service's state: `self.tickets`, an insertion-ordered map. -/
structure JiraState where
  tickets : List (String × Ticket)
deriving DecidableEq

/-- Seeded fixture ticket `PROJ-101`. -/
def proj101 : Ticket :=
  { id := "PROJ-101", title := "Password reset not working",
    description := "Users report that password reset emails are not being received",
    status := "Open", priority := "High",
    assignee := some "john.doe@company.com", reporter := "user@company.com",
    created := "2024-01-05T10:00:00Z", updated := "2024-01-06T09:30:00Z" }

/-- Seeded fixture ticket `PROJ-102`. -/
def proj102 : Ticket :=
  { id := "PROJ-102", title := "API authentication timeout",
    description := "API requests are timing out during authentication",
    status := "In Progress", priority := "Critical",
    assignee := some "jane.smith@company.com", reporter := "admin@company.com",
    created := "2024-01-04T14:20:00Z", updated := "2024-01-06T11:00:00Z" }

/-- Seeded fixture ticket `PROJ-103`. -/
def proj103 : Ticket :=
  { id := "PROJ-103", title := "Update documentation",
    description := "Need to update API documentation with new endpoints",
    status := "Todo", priority := "Medium",
    assignee := some "doc.writer@company.com", reporter := "manager@company.com",
    created := "2024-01-03T09:00:00Z", updated := "2024-01-03T09:00:00Z" }

/-- The freshly initialized state of `MockJiraService`. -/
def seededJira : JiraState :=
  { tickets := [("PROJ-101", proj101), ("PROJ-102", proj102), ("PROJ-103", proj103)] }

/-- `MockJiraService.get_ticket`: exact key lookup. -/
def get_ticket (s : JiraState) (ticket_id : String) : Option Ticket :=
  s.tickets.lookup ticket_id

/-- The text filter of `search_tickets`: case-insensitive substring
match against title or description. -/
def textMatches (q : String) (t : Ticket) : Bool :=
  containsStr (pyLower t.title) (pyLower q) ||
    containsStr (pyLower t.description) (pyLower q)

/-- `MockJiraService.search_tickets`.  Each optional filter is applied
only when its argument is truthy (present and non-empty), mirroring
Python `if query:` / `if status:` / `if priority:`. -/
def search_tickets (s : JiraState) (query status priority : Option String) :
    List Ticket :=
  let results := s.tickets.map Prod.snd
  let results :=
    match query with
    | some q => if q = "" then results else results.filter (textMatches q)
    | none => results
  let results :=
    match status with
    | some st =>
      if st = "" then results
      else results.filter (fun t => pyLower t.status == pyLower st)
    | none => results
  match priority with
  | some pr =>
    if pr = "" then results
    else results.filter (fun t => pyLower t.priority == pyLower pr)
  | none => results

/-- `MockJiraService.create_ticket`: assigns `PROJ-{len(tickets)+101}`,
status `"Open"`, reporter `"system@company.com"`, both timestamps the
current time (`now`), and appends to the map. -/
def create_ticket (s : JiraState) (now title description priority : String) :
    Ticket × JiraState :=
  let ticket_id := "PROJ-" ++ toString (s.tickets.length + 101)
  let t : Ticket :=
    { id := ticket_id, title := title, description := description,
      status := "Open", priority := priority, assignee := none,
      reporter := "system@company.com", created := now, updated := now }
  (t, { tickets := s.tickets ++ [(ticket_id, t)] })

end Jira

/-- C7: on the freshly seeded tracker, `get_ticket("PROJ-101")` returns
the seeded "Password reset not working" ticket; `create_ticket` with 3
tickets present assigns id `PROJ-104` and default status `"Open"`; the
text/status/priority filters of `search_tickets` compose as a
conjunction (whole-string case-insensitive comparison for status and
priority); and `search_tickets(status="Open")` returns exactly the
seeded tickets whose status equals `"Open"`, excluding the
"In Progress" ticket `PROJ-102`. -/
theorem c7_mock_jira_tracker (now title description priority q st pr : String) :
    Jira.get_ticket Jira.seededJira "PROJ-101" = some Jira.proj101 ∧
    Jira.proj101.title = "Password reset not working" ∧
    (Jira.create_ticket Jira.seededJira now title description priority).1.id = "PROJ-104" ∧
    (Jira.create_ticket Jira.seededJira now title description priority).1.status = "Open" ∧
    (∀ s : Jira.JiraState, q ≠ "" → st ≠ "" → pr ≠ "" →
      Jira.search_tickets s (some q) (some st) (some pr) =
        (s.tickets.map Prod.snd).filter
          (fun t => (pyLower t.priority == pyLower pr) &&
            ((pyLower t.status == pyLower st) && Jira.textMatches q t))) ∧
    Jira.search_tickets Jira.seededJira none (some "Open") none = [Jira.proj101] ∧
    (Jira.seededJira.tickets.map Prod.snd).filter (fun t => t.status = "Open") =
      [Jira.proj101] ∧
    Jira.proj102 ∉ Jira.search_tickets Jira.seededJira none (some "Open") none := by
  refine ⟨by decide, by decide, ?_, ?_, ?_, by decide, by decide, by decide⟩
  · rfl
  · rfl
  · intro s hq hst hpr
    simp only [Jira.search_tickets, if_neg hq, if_neg hst, if_neg hpr,
      List.filter_filter]

/-- Witness for C7: the filter-conjunction equation applied on the
seeded tracker with concrete non-empty filters. -/
theorem c7_mock_jira_tracker_witness :
    Jira.get_ticket Jira.seededJira "PROJ-101" = some Jira.proj101 ∧
    Jira.search_tickets Jira.seededJira (some "password") (some "open") (some "high") =
      (Jira.seededJira.tickets.map Prod.snd).filter
        (fun t => (pyLower t.priority == pyLower "high") &&
          ((pyLower t.status == pyLower "open") && Jira.textMatches "password" t)) := by
  have h := c7_mock_jira_tracker "t0" "t" "d" "Medium" "password" "open" "high"
  exact ⟨h.1, h.2.2.2.2.1 Jira.seededJira (by decide) (by decide) (by decide)⟩

/-! ## Mocked chat service (`app/services/mock_services.py`, `MockSlackService`)

`get_channel_messages` returns `channel_data["messages"][:limit]` —
the FIRST `limit` messages in insertion order — while `post_message`
APPENDS to the channel's message list.  So the messages returned are
the channel's oldest, not its most recent. -/

namespace Slack

/-- A chat message. -/
structure SlackMessage where
  id : String
  user : String
  text : String
  timestamp : String
  thread_ts : Option String
deriving DecidableEq

/-- A chat channel. -/
structure Channel where
  id : String
  name : String
  members : Nat
  messages : List SlackMessage
deriving DecidableEq

/-- The mock service's state: `self.channels`. -/
structure SlackState where
  channels : List (String × Channel)
deriving DecidableEq

/-- Seeded message `M001`. -/
def msgM001 : SlackMessage :=
  { id := "M001", user := "alice",
    text := "Has anyone seen the new API documentation?",
    timestamp := "2024-01-06T10:00:00Z", thread_ts := none }

/-- Seeded message `M002`. -/
def msgM002 : SlackMessage :=
  { id := "M002", user := "bob",
    text := "Yes, it's available at docs.company.com",
    timestamp := "2024-01-06T10:05:00Z", thread_ts := some "M001" }

/-- Seeded message `M003`. -/
def msgM003 : SlackMessage :=
  { id := "M003", user := "charlie",
    text := "The password reset feature is broken. JIRA ticket PROJ-101 created.",
    timestamp := "2024-01-06T09:00:00Z", thread_ts := none }

/-- Seeded message `M004`. -/
def msgM004 : SlackMessage :=
  { id := "M004", user := "diana",
    text := "I'm looking into it. Seems like an email service issue.",
    timestamp := "2024-01-06T09:30:00Z", thread_ts := some "M003" }

/-- Seeded message `M005`. -/
def msgM005 : SlackMessage :=
  { id := "M005", user := "support_agent",
    text := "Customer asking about API rate limits",
    timestamp := "2024-01-06T11:00:00Z", thread_ts := none }

/-- Seeded channel `general`. -/
def generalChannel : Channel :=
  { id := "C001", name := "general", members := 50, messages := [msgM001, msgM002] }

/-- Seeded channel `engineering`. -/
def engineeringChannel : Channel :=
  { id := "C002", name := "engineering", members := 25, messages := [msgM003, msgM004] }

/-- Seeded channel `support`. -/
def supportChannel : Channel :=
  { id := "C003", name := "support", members := 15, messages := [msgM005] }

/-- The freshly initialized state of `MockSlackService`. -/
def seededSlack : SlackState :=
  { channels := [("general", generalChannel), ("engineering", engineeringChannel),
                 ("support", supportChannel)] }

/-- `MockSlackService.get_channel_messages`: empty for an unknown
channel, else `messages[:limit]` (the first `limit` messages). -/
def get_channel_messages (s : SlackState) (channel : String) (limit : Nat) :
    List SlackMessage :=
  match s.channels.lookup channel with
  | none => []
  | some channel_data => channel_data.messages.take limit

/-- `MockSlackService.post_message`: raises for an unknown channel,
else appends a message authored `"bot"` with id `M{len(messages)+100}`
and the current timestamp (`now`). -/
def post_message (s : SlackState) (now : String) (channel text : String)
    (thread_ts : Option String) : Except String (SlackMessage × SlackState) :=
  match s.channels.lookup channel with
  | none => .error ("Channel #" ++ channel ++ " not found")
  | some channel_data =>
    let message : SlackMessage :=
      { id := "M" ++ toString (channel_data.messages.length + 100),
        user := "bot", text := text, timestamp := now, thread_ts := thread_ts }
    .ok (message,
      { channels := s.channels.map (fun p =>
          if p.1 = channel then
            (p.1, { channel_data with messages := channel_data.messages ++ [message] })
          else p) })

/-- The state after posting `"hi"` to `general` on the seeded service. -/
def postedState : SlackState :=
  match post_message seededSlack "2024-01-07T00:00:00Z" "general" "hi" none with
  | .ok (_, s') => s'
  | .error _ => seededSlack

/-- The message created by posting `"hi"` to `general` on the seeded
service. -/
def postedMsg : SlackMessage :=
  match post_message seededSlack "2024-01-07T00:00:00Z" "general" "hi" none with
  | .ok (m, _) => m
  | .error _ => { id := "", user := "", text := "", timestamp := "", thread_ts := none }

end Slack

/-- Counterexample to C9: on the seeded service, channel `general`
already holds 2 messages; posting a new message and then requesting
`limit = 2` messages returns the two OLDEST messages (`M001`, `M002`),
and the newly posted (most recent) message is NOT among them —
`get_channel_messages` returns `messages[:limit]`, not the most recent
ones. -/
theorem c9_slack_most_recent_counterexample :
    Slack.post_message Slack.seededSlack "2024-01-07T00:00:00Z" "general" "hi" none =
      .ok (Slack.postedMsg, Slack.postedState) ∧
    (Slack.seededSlack.channels.lookup "general").map (fun cd => cd.messages.length) =
      some 2 ∧
    Slack.get_channel_messages Slack.postedState "general" 2 =
      [Slack.msgM001, Slack.msgM002] ∧
    Slack.postedMsg ∉ Slack.get_channel_messages Slack.postedState "general" 2 := by
  refine ⟨rfl, by decide, by decide, by decide⟩

/-- C9 as amended: `get_channel_messages` returns at most `limit`
messages, returns `[]` when the channel is unknown, and returns the
channel's FIRST `limit` messages in insertion order (the oldest ones),
so a message newly posted to a channel already holding at least
`limit` messages is not among those returned. -/
theorem c9_slack_get_channel_messages (s : Slack.SlackState)
    (channel : String) (limit : Nat) :
    (Slack.get_channel_messages s channel limit).length ≤ limit ∧
    (s.channels.lookup channel = none →
      Slack.get_channel_messages s channel limit = []) ∧
    (∀ cd, s.channels.lookup channel = some cd →
      Slack.get_channel_messages s channel limit = cd.messages.take limit) := by
  refine ⟨?_, ?_, ?_⟩
  · unfold Slack.get_channel_messages
    cases s.channels.lookup channel with
    | none => simp
    | some cd => simp
  · intro h; simp [Slack.get_channel_messages, h]
  · intro cd h; simp [Slack.get_channel_messages, h]

/-- Witness for the amended C9: an unknown channel yields `[]`, and on
the seeded `general` channel `limit = 1` yields exactly the first
(oldest) message. -/
theorem c9_slack_get_channel_messages_witness :
    Slack.get_channel_messages Slack.seededSlack "missing" 2 = [] ∧
    Slack.get_channel_messages Slack.seededSlack "general" 1 = [Slack.msgM001] := by
  have h1 := (c9_slack_get_channel_messages Slack.seededSlack "missing" 2).2.1 (by decide)
  have h2 := (c9_slack_get_channel_messages Slack.seededSlack "general" 1).2.2
    Slack.generalChannel (by decide)
  exact ⟨h1, by rw [h2]; decide⟩

/-! ## FAISS vector store (`app/services/vector_store.py`)

The native index is embedded as the ordered list of vectors it holds
(`index = none` before any index exists, as `self.index: Optional`).
Vector values are opaque to the invariant; `normalize` stands for
`faiss.normalize_L2`, applied per vector when the index family is
`"IP"` (IVF training mutates no contents and is omitted).  The length
check of `add_vectors` happens AFTER the lazy `create_index()` (as in
the source), and a mismatch raises, adding nothing. -/

namespace VStore

/-- An embedding vector (components opaque to the parallel-array
invariant; rationals stand for the 32-bit floats). -/
abbrev Vec := List Rat

/-- `FAISSVectorStore` state: the optional native index (as its
ordered vector contents) and the parallel chunk-id list. -/
structure VectorStore where
  index_type : String
  index : Option (List Vec)
  chunk_ids : List Int

/-- The state right after `__init__`. -/
def initStore (index_type : String) : VectorStore :=
  { index_type := index_type, index := none, chunk_ids := [] }

/-- `create_index`: a fresh empty index of the configured family, and
the chunk-id list cleared. -/
def create_index (s : VectorStore) : VectorStore :=
  { s with index := some [], chunk_ids := [] }

/-- `clear_index` is `create_index`. -/
def clear_index (s : VectorStore) : VectorStore :=
  create_index s

/-- The number of vectors held in the native index (`index.ntotal`;
0 when no index exists). -/
def ntotal (s : VectorStore) : Nat :=
  (s.index.getD []).length

/-- `add_vectors`: lazily create the index, check the lengths (raising
`ValueError` on mismatch), normalize for the `"IP"` family, then
append the vectors to the native index and the ids to the parallel
list. -/
def add_vectors (normalize : Vec → Vec) (s : VectorStore)
    (vectors : List Vec) (chunk_ids : List Int) :
    Except String Unit × VectorStore :=
  let s1 := if s.index.isNone then create_index s else s
  if vectors.length ≠ chunk_ids.length then
    (.error ("Mismatch between vectors (" ++ toString vectors.length ++
      ") and chunk_ids (" ++ toString chunk_ids.length ++ ")"), s1)
  else
    let vecs := if s1.index_type = "IP" then vectors.map normalize else vectors
    (.ok (),
      { s1 with
        index := some ((s1.index.getD []) ++ vecs),
        chunk_ids := s1.chunk_ids ++ chunk_ids })

/-- `search`: read-only; empty on an empty or missing index, otherwise
the native neighbor positions (`nativeSearch`, the FAISS call,
returning `(position, distance)` pairs with `-1` as the no-match
sentinel) are mapped back through the parallel chunk-id list. -/
def searchStore (nativeSearch : List Vec → Vec → Nat → List (Int × Rat))
    (s : VectorStore) (query_vector : Vec) (top_k : Nat) : List (Int × Rat) :=
  match s.index with
  | none => []
  | some contents =>
    if contents.length = 0 then []
    else
      (nativeSearch contents query_vector (min top_k contents.length)).filterMap
        (fun p =>
          if p.1 ≠ -1 ∧ p.1.toNat < s.chunk_ids.length then
            some (s.chunk_ids.getD p.1.toNat 0,
              if s.index_type = "IP" then p.2 else 1 / (1 + p.2))
          else none)

/-- One externally driven operation on the store. -/
inductive VOp where
  | createIndex
  | addVectors (vectors : List Vec) (chunk_ids : List Int)
  | runSearch (query : Vec) (top_k : Nat)
  | clearIndex

/-- Apply one operation to the state (`search` reads but never
mutates). -/
def stepOp (normalize : Vec → Vec) (s : VectorStore) : VOp → VectorStore
  | .createIndex => create_index s
  | .addVectors v c => (add_vectors normalize s v c).2
  | .runSearch _ _ => s
  | .clearIndex => clear_index s

/-- Run a sequence of operations from a state. -/
def runOps (normalize : Vec → Vec) (s : VectorStore) (ops : List VOp) : VectorStore :=
  ops.foldl (stepOp normalize) s

/-- The parallel-array invariant: the index contents and the chunk-id
list are the two projections of one list of (vector, chunk-id) pairs —
so they have equal length and position `i` of the index corresponds to
`chunk_ids[i]`. -/
def Aligned (s : VectorStore) : Prop :=
  ∃ pairs : List (Vec × Int),
    s.index.getD [] = pairs.map Prod.fst ∧ s.chunk_ids = pairs.map Prod.snd

theorem aligned_initStore (t : String) : Aligned (initStore t) :=
  ⟨[], rfl, rfl⟩

theorem aligned_create_index (s : VectorStore) : Aligned (create_index s) :=
  ⟨[], rfl, rfl⟩

theorem aligned_add_vectors (normalize : Vec → Vec) (s : VectorStore)
    (hs : Aligned s) (v : List Vec) (c : List Int) :
    Aligned (add_vectors normalize s v c).2 := by
  have hs1 : Aligned (if s.index.isNone then create_index s else s) := by
    by_cases hnone : s.index.isNone
    · rw [if_pos hnone]; exact aligned_create_index s
    · rw [if_neg hnone]; exact hs
  obtain ⟨ps1, h1f, h1s⟩ := hs1
  by_cases hlen : v.length ≠ c.length
  · simp only [add_vectors, if_pos hlen]
    exact ⟨ps1, h1f, h1s⟩
  · push_neg at hlen
    simp only [add_vectors, if_neg (show ¬ v.length ≠ c.length by omega)]
    set s1 := if s.index.isNone then create_index s else s with hs1def
    set vecs := if s1.index_type = "IP" then v.map normalize else v with hvdef
    have hvl : vecs.length = c.length := by
      rw [hvdef]; split <;> simp [hlen]
    refine ⟨ps1 ++ vecs.zip c, ?_, ?_⟩
    · simp [h1f, List.map_fst_zip vecs c (le_of_eq hvl)]
    · simp [h1s, List.map_snd_zip vecs c (le_of_eq hvl.symm)]

theorem aligned_stepOp (normalize : Vec → Vec) (s : VectorStore)
    (hs : Aligned s) (op : VOp) : Aligned (stepOp normalize s op) := by
  cases op with
  | createIndex => exact aligned_create_index s
  | clearIndex => exact aligned_create_index s
  | runSearch q k => exact hs
  | addVectors v c => exact aligned_add_vectors normalize s hs v c

end VStore

/-- C8: under every sequence of `create_index` / `add_vectors` /
`search` / `clear_index` operations from a fresh store, the chunk-id
list and the native index stay the two projections of one aligned
pair list (equal length, position `i` ↔ `chunk_ids[i]`); and from any
aligned state, `add_vectors` with different-length inputs raises and
changes neither the vector count nor the chunk-id list. -/
theorem c8_vector_store_parallel_invariant (normalize : VStore.Vec → VStore.Vec)
    (index_type : String) (ops : List VStore.VOp) :
    VStore.Aligned (VStore.runOps normalize (VStore.initStore index_type) ops) ∧
    (∀ s : VStore.VectorStore, VStore.Aligned s →
      ∀ (v : List VStore.Vec) (c : List Int), v.length ≠ c.length →
        (VStore.add_vectors normalize s v c).1 =
          .error ("Mismatch between vectors (" ++ toString v.length ++
            ") and chunk_ids (" ++ toString c.length ++ ")") ∧
        VStore.ntotal (VStore.add_vectors normalize s v c).2 = VStore.ntotal s ∧
        (VStore.add_vectors normalize s v c).2.chunk_ids = s.chunk_ids) := by
  constructor
  · have h : ∀ (l : List VStore.VOp) (s : VStore.VectorStore), VStore.Aligned s →
        VStore.Aligned (VStore.runOps normalize s l) := by
      intro l
      induction l with
      | nil => intro s hs; exact hs
      | cons op rest ih =>
        intro s hs
        exact ih _ (VStore.aligned_stepOp normalize s hs op)
    exact h ops _ (VStore.aligned_initStore index_type)
  · intro s hs v c hlen
    obtain ⟨pairs, hfst, hsnd⟩ := hs
    by_cases hnone : s.index.isNone
    · have hempty : s.index.getD [] = [] := by
        cases hidx : s.index with
        | none => rfl
        | some l => rw [hidx] at hnone; simp [Option.isNone] at hnone
      have hcids : s.chunk_ids = [] := by
        rw [hempty] at hfst
        have : pairs = [] := by
          cases pairs with
          | nil => rfl
          | cons p ps => simp at hfst
        rw [this] at hsnd
        simpa using hsnd
      refine ⟨?_, ?_, ?_⟩ <;>
        simp [VStore.add_vectors, hnone, hlen, VStore.ntotal, VStore.create_index,
          hempty, hcids]
    · refine ⟨?_, ?_, ?_⟩ <;>
        simp [VStore.add_vectors, hnone, hlen, VStore.ntotal]

/-- Witness for C8: the invariant after a concrete operation sequence,
and the mismatch case on the fresh store (chunk-id list and vector
count unchanged). -/
theorem c8_vector_store_parallel_invariant_witness :
    VStore.Aligned (VStore.runOps id (VStore.initStore "Flat")
      [VStore.VOp.addVectors [[1], [2]] [10, 11], VStore.VOp.runSearch [1] 5]) ∧
    (VStore.add_vectors id (VStore.initStore "Flat") [[1], [2]] [10]).1 =
      .error "Mismatch between vectors (2) and chunk_ids (1)" ∧
    VStore.ntotal (VStore.add_vectors id (VStore.initStore "Flat") [[1], [2]] [10]).2 = 0 ∧
    (VStore.add_vectors id (VStore.initStore "Flat") [[1], [2]] [10]).2.chunk_ids = [] := by
  have h := c8_vector_store_parallel_invariant id "Flat"
    [VStore.VOp.addVectors [[1], [2]] [10, 11], VStore.VOp.runSearch [1] 5]
  have h2 := h.2 (VStore.initStore "Flat") (VStore.aligned_initStore "Flat")
    [[1], [2]] [10] (by decide)
  exact ⟨h.1, h2.1, h2.2.1, h2.2.2⟩

/-! ## Search service (`app/services/search_service.py`)

`SearchService.search` embeds the query, asks the vector store for
`2 × top_k` candidates, joins them back to chunk/document rows,
collects up to `top_k` scored results, then persists one `SearchQuery`
audit row — but it returns early, persisting NOTHING, when the vector
store yields no candidates.  `hybrid_search` never adds an audit row
itself, but it CALLS `self.search(db, query, top_k*2)`, so the nested
semantic search persists a `SearchQuery` row whenever the vector store
returns candidates.  The embedding model, the vector store and the
relational chunk rows are the `Env` boundary; scores are rationals
standing for the floats. -/

namespace SearchSvc

/-- A persisted `SearchQuery` audit row (the committed fields the
claim is about; `execution_time` is wall-clock I/O and is omitted). -/
structure SearchQueryRow where
  query_text : String
  top_k : Nat
  results_count : Nat
deriving DecidableEq

/-- A `DocumentChunk` row. -/
structure ChunkRow where
  id : Nat
  document_id : Nat
  content : String
  chunk_index : Nat
  token_count : Nat
deriving DecidableEq

/-- A `Document` row. -/
structure DocRow where
  id : Nat
  title : String
  doc_type : String
  source : String
deriving DecidableEq

/-- A `SearchResult` contract value (`app/core/schemas.py`). -/
structure SearchResult where
  chunk_id : Nat
  document_id : Nat
  document_title : String
  document_type : String
  document_source : String
  chunk_content : String
  chunk_index : Nat
  similarity_score : Rat
deriving DecidableEq

/-- The external boundary of the search service: the composed
embedding-plus-vector-store lookup (query text and requested candidate
count to scored chunk ids) and the joined chunk/document/embedding
rows in the relational store. -/
structure Env where
  vectorSearch : String → Nat → List (Nat × Rat)
  chunkRows : List (ChunkRow × DocRow)

/-- The relational database state the claim observes: the set of
persisted `SearchQuery` audit rows. -/
structure Db where
  search_queries : List SearchQueryRow
deriving DecidableEq

/-- The chunk/document join of `search`, with the candidate-id
restriction and the optional doc_type/source filters. -/
def fetchChunks (env : Env) (chunk_ids : List Nat)
    (doc_type source : Option String) : List (ChunkRow × DocRow) :=
  env.chunkRows.filter (fun cd =>
    chunk_ids.contains cd.1.id &&
    (match doc_type with | some t => cd.2.doc_type == t | none => true) &&
    (match source with | some s => cd.2.source == s | none => true))

/-- Build one `SearchResult` from a joined row and its vector-store
similarity score. -/
def mkResult (cd : ChunkRow × DocRow) (score : Rat) : SearchResult :=
  { chunk_id := cd.1.id, document_id := cd.2.id,
    document_title := cd.2.title, document_type := cd.2.doc_type,
    document_source := cd.2.source, chunk_content := cd.1.content,
    chunk_index := cd.1.chunk_index, similarity_score := score }

/-- The result-collection loop of `search`: walk the scored candidates
in vector-store order, keep those with a fetched row, and break once
`top_k` results are collected (`sofar` counts results so far). -/
def collectResults (chunks_data : List (ChunkRow × DocRow)) (top_k : Nat) :
    List (Nat × Rat) → Nat → List SearchResult
  | [], _ => []
  | (cid, score) :: rest, sofar =>
    match chunks_data.find? (fun cd => cd.1.id = cid) with
    | some cd =>
      let r := mkResult cd score
      if sofar + 1 ≥ top_k then [r]
      else r :: collectResults chunks_data top_k rest (sofar + 1)
    | none => collectResults chunks_data top_k rest sofar

/-- `SearchService.search`: over-fetch `2 × top_k` candidates, join,
collect up to `top_k` results, and persist one `SearchQuery` audit
row — unless the vector store yields nothing, in which case return
early with the database untouched. -/
def searchSvc (env : Env) (db : Db) (query : String) (top_k : Nat)
    (doc_type source : Option String) : List SearchResult × Db :=
  let vector_results := env.vectorSearch query (top_k * 2)
  if vector_results.isEmpty then ([], db)
  else
    let chunk_ids := vector_results.map Prod.fst
    let chunks_data := fetchChunks env chunk_ids doc_type source
    let results := collectResults chunks_data top_k vector_results 0
    (results,
      { search_queries := db.search_queries ++
          [{ query_text := query, top_k := top_k, results_count := results.length }] })

/-- Python dict assignment `combined_scores[k] = v` on an
insertion-ordered score map. -/
def setScore (l : List (Nat × Rat)) (k : Nat) (v : Rat) : List (Nat × Rat) :=
  if l.any (fun p => p.1 = k) then
    l.map (fun p => if p.1 = k then (k, v) else p)
  else l ++ [(k, v)]

/-- `combined_scores[k] += v` when present, else `= v`. -/
def addScore (l : List (Nat × Rat)) (k : Nat) (v : Rat) : List (Nat × Rat) :=
  if l.any (fun p => p.1 = k) then
    l.map (fun p => if p.1 = k then (p.1, p.2 + v) else p)
  else l ++ [(k, v)]

/-- Stable insertion for descending sort by score (Python
`sorted(..., key=score, reverse=True)` keeps equal-score entries in
original order). -/
def insertDescBy (p : Nat × Rat) : List (Nat × Rat) → List (Nat × Rat)
  | [] => [p]
  | q :: rest => if q.2 ≥ p.2 then q :: insertDescBy p rest else p :: q :: rest

/-- Stable descending sort by score. -/
def sortDescBy (l : List (Nat × Rat)) : List (Nat × Rat) :=
  l.foldl (fun acc p => insertDescBy p acc) []

/-- `SearchService.hybrid_search`: normalize the weights, run the
nested semantic `search` for `2 × top_k` candidates (which persists
its own audit row when candidates exist), run the case-insensitive
substring keyword match over chunk content (read-only), blend the two
score lists, sort, keep `top_k`, and re-fetch rows for the final
results.  No `SearchQuery` row is added by this function itself. -/
def hybrid_search (env : Env) (db : Db) (query : String) (top_k : Nat)
    (keyword_weight semantic_weight : Rat) : List SearchResult × Db :=
  let total_weight := keyword_weight + semantic_weight
  let kw := keyword_weight / total_weight
  let sw := semantic_weight / total_weight
  let sem := searchSvc env db query (top_k * 2) none none
  let semantic_results := sem.1
  let db1 := sem.2
  let keyword_chunks := (env.chunkRows.filter
      (fun cd => containsStr (pyLower cd.1.content) (pyLower query))).take (top_k * 2)
  let combined := semantic_results.foldl
      (fun acc r => setScore acc r.chunk_id (r.similarity_score * sw)) []
  let combined := keyword_chunks.enum.foldl
      (fun acc p =>
        addScore acc p.2.1.id ((1 - (p.1 : Rat) / (keyword_chunks.length : Rat)) * kw))
      combined
  let sorted_chunk_ids := (sortDescBy combined).take top_k
  let final_chunk_ids := sorted_chunk_ids.map Prod.fst
  let final_chunks := env.chunkRows.filter (fun cd => final_chunk_ids.contains cd.1.id)
  let hybrid_results := sorted_chunk_ids.filterMap (fun p =>
      (final_chunks.find? (fun cd => cd.1.id = p.1)).map (fun cd => mkResult cd p.2))
  (hybrid_results, db1)

/-- A one-chunk environment whose vector store always returns
candidate chunk 1. -/
def env0 : Env :=
  { vectorSearch := fun _ _ => [(1, 1)],
    chunkRows := [({ id := 1, document_id := 1, content := "alpha content",
                     chunk_index := 0, token_count := 3 },
                   { id := 1, title := "Doc One", doc_type := "text", source := "src" })] }

/-- An environment whose vector store never returns candidates. -/
def envEmpty : Env :=
  { vectorSearch := fun _ _ => [], chunkRows := [] }

end SearchSvc

/-- Counterexample to C2: `hybrid_search` DOES change the set of
`SearchQuery` rows — its nested semantic `search` call persists one
row (here with the doubled `top_k = 10`); and dually, a `search` call
whose vector store yields nothing persists NO row, so not every
`search` call persists one. -/
theorem c2_search_audit_counterexample :
    (SearchSvc.hybrid_search SearchSvc.env0 ⟨[]⟩ "alpha" 5 (3 / 10) (7 / 10)).2.search_queries =
      [{ query_text := "alpha", top_k := 10, results_count := 1 }] ∧
    (SearchSvc.hybrid_search SearchSvc.env0 ⟨[]⟩ "alpha" 5 (3 / 10) (7 / 10)).2 ≠
      (⟨[]⟩ : SearchSvc.Db) ∧
    (SearchSvc.searchSvc SearchSvc.envEmpty ⟨[]⟩ "alpha" 5 none none).2 =
      (⟨[]⟩ : SearchSvc.Db) := by
  refine ⟨rfl, ?_, rfl⟩
  intro h
  have := congrArg SearchSvc.Db.search_queries h
  rw [show (SearchSvc.hybrid_search SearchSvc.env0 ⟨[]⟩ "alpha" 5 (3 / 10) (7 / 10)).2.search_queries =
      [{ query_text := "alpha", top_k := 10, results_count := 1 }] from rfl] at this
  simp at this

/-- C2 as amended: `search` persists exactly one `SearchQuery` row
(query text, top_k, result count) when the vector store returns at
least one candidate, and none when it returns nothing; and
`hybrid_search` adds no audit row beyond the one its nested semantic
`search` call (at `2 × top_k`) persists — its final database state is
exactly that of the nested call. -/
theorem c2_search_audit_rows (env : SearchSvc.Env) (db : SearchSvc.Db)
    (query : String) (top_k : Nat) (doc_type source : Option String) :
    (env.vectorSearch query (top_k * 2) = [] →
      (SearchSvc.searchSvc env db query top_k doc_type source).2 = db) ∧
    (env.vectorSearch query (top_k * 2) ≠ [] →
      (SearchSvc.searchSvc env db query top_k doc_type source).2.search_queries =
        db.search_queries ++
          [{ query_text := query, top_k := top_k,
             results_count :=
               (SearchSvc.searchSvc env db query top_k doc_type source).1.length }]) ∧
    (∀ keyword_weight semantic_weight : Rat,
      (SearchSvc.hybrid_search env db query top_k keyword_weight semantic_weight).2 =
        (SearchSvc.searchSvc env db query (top_k * 2) none none).2) := by
  refine ⟨?_, ?_, ?_⟩
  · intro h
    simp [SearchSvc.searchSvc, h]
  · intro h
    rw [show (SearchSvc.searchSvc env db query top_k doc_type source) =
        (let vector_results := env.vectorSearch query (top_k * 2)
         if vector_results.isEmpty then ([], db)
         else
           let chunk_ids := vector_results.map Prod.fst
           let chunks_data := SearchSvc.fetchChunks env chunk_ids doc_type source
           let results := SearchSvc.collectResults chunks_data top_k vector_results 0
           (results,
             { search_queries := db.search_queries ++
                 [{ query_text := query, top_k := top_k,
                    results_count := results.length }] })) from rfl]
    simp only [List.isEmpty_eq_true, h, if_false]
  · intro kw sw
    rfl

/-- Witness for the amended C2: the three parts applied on the
concrete environments (empty vector store, and the one-chunk store
through `hybrid_search`). -/
theorem c2_search_audit_rows_witness :
    (SearchSvc.searchSvc SearchSvc.envEmpty ⟨[]⟩ "alpha" 5 none none).2 =
      (⟨[]⟩ : SearchSvc.Db) ∧
    (SearchSvc.searchSvc SearchSvc.env0 ⟨[]⟩ "alpha" 10 none none).2.search_queries =
      [] ++ [{ query_text := "alpha", top_k := 10,
               results_count :=
                 (SearchSvc.searchSvc SearchSvc.env0 ⟨[]⟩ "alpha" 10 none none).1.length }] ∧
    (SearchSvc.hybrid_search SearchSvc.env0 ⟨[]⟩ "alpha" 5 (3 / 10) (7 / 10)).2 =
      (SearchSvc.searchSvc SearchSvc.env0 ⟨[]⟩ "alpha" 10 none none).2 := by
  have h1 := (c2_search_audit_rows SearchSvc.envEmpty ⟨[]⟩ "alpha" 5 none none).1 rfl
  have h2 := (c2_search_audit_rows SearchSvc.env0 ⟨[]⟩ "alpha" 10 none none).2.1
    (by decide)
  have h3 := (c2_search_audit_rows SearchSvc.env0 ⟨[]⟩ "alpha" 5 none none).2.2 (3 / 10) (7 / 10)
  exact ⟨h1, h2, h3⟩

/-! ## Chunking service (`app/services/chunking_service.py`)

`ChunkingService.chunk_text` encodes the text with the `cl100k_base`
tokenizer (the external boundary — the embedding works directly on
the encoded token sequence `tokens`), then walks a cursor: while
`start < total_tokens`, emit the chunk `[start, min(start+size, T))`,
advance `start = end - overlap`, and break when the cursor reaches the
end (`start >= T`, or `end == T` with the remaining span inside the
overlap).  The loop is embedded with explicit fuel, `none` standing
for a run that exceeds every bound (the Python loop not terminating);
`tokens.length + 1` fuel provably suffices for the default
configuration.  The cursor uses `Nat` arithmetic, which coincides with
Python's integers whenever `chunk_overlap < chunk_size` (the cursor
only goes negative in Python after the loop has already decided to
break; truncation at 0 decides the break condition identically). -/

namespace Chunking

/-- One emitted chunk: its token slice (`content` decodes to the
chunk's text), token count, token-window bounds and index. -/
structure Chunk where
  content : List Nat
  token_count : Nat
  start_token : Nat
  end_token : Nat
  chunk_index : Nat
deriving DecidableEq

/-- The `while start < total_tokens` loop of `chunk_text`, with fuel. -/
def chunkLoop (chunk_size chunk_overlap : Nat) (tokens : List Nat) :
    Nat → Nat → Nat → Option (List Chunk)
  | 0, _, _ => none
  | fuel + 1, start, chunk_index =>
    if start < tokens.length then
      let e := min (start + chunk_size) tokens.length
      let chunk_tokens := (tokens.drop start).take (e - start)
      let chunk : Chunk :=
        { content := chunk_tokens, token_count := chunk_tokens.length,
          start_token := start, end_token := e, chunk_index := chunk_index }
      let start' := e - chunk_overlap
      if start' ≥ tokens.length ∨
          (e = tokens.length ∧ start' + chunk_overlap ≥ tokens.length) then
        some [chunk]
      else
        (chunkLoop chunk_size chunk_overlap tokens fuel start' (chunk_index + 1)).map
          (fun L => chunk :: L)
    else
      some []

/-- `chunk_text` on the encoded token sequence (an empty or
whitespace-only text encodes to no tokens and yields no chunks, which
the loop also gives). -/
def chunk_text (chunk_size chunk_overlap : Nat) (tokens : List Nat) :
    Option (List Chunk) :=
  chunkLoop chunk_size chunk_overlap tokens (tokens.length + 1) 0 0

/-- The tokens of the chunks after the first, each with its leading
`ov`-token overlap dropped. -/
def glueTail (ov : Nat) (L : List Chunk) : List Nat :=
  (L.map (fun c => c.content.drop ov)).flatten

/-- Concatenate the chunks' tokens, dropping each subsequent chunk's
`ov`-token overlap. -/
def glue (ov : Nat) : List Chunk → List Nat
  | [] => []
  | c :: rest => c.content ++ glueTail ov rest

/-- With the default 512/50 configuration, an iteration whose window
reaches the end of the token sequence emits the final chunk
`[start, T)` and breaks. -/
theorem chunkLoop_succ_final (tokens : List Nat) (fuel start idx : Nat)
    (h1 : start < tokens.length) (he : tokens.length ≤ start + 512) :
    chunkLoop 512 50 tokens (fuel + 1) start idx =
      some [{ content := tokens.drop start,
              token_count := tokens.length - start,
              start_token := start, end_token := tokens.length,
              chunk_index := idx }] := by
  have hmin : min (start + 512) tokens.length = tokens.length := by omega
  have htake : (tokens.drop start).take (tokens.length - start) = tokens.drop start :=
    List.take_of_length_le (by simp)
  have hbreak : tokens.length - 50 ≥ tokens.length ∨
      (True ∧ tokens.length - 50 + 50 ≥ tokens.length) :=
    Or.inr ⟨trivial, by omega⟩
  simp only [chunkLoop, hmin, htake]
  rw [if_pos h1, if_pos hbreak]
  simp

/-- With the default 512/50 configuration, an iteration whose window
ends strictly before the end of the token sequence emits the chunk
`[start, start+512)` and continues at `start + 462`. -/
theorem chunkLoop_succ_step (tokens : List Nat) (fuel start idx : Nat)
    (he : start + 512 < tokens.length) :
    chunkLoop 512 50 tokens (fuel + 1) start idx =
      (chunkLoop 512 50 tokens fuel (start + 462) (idx + 1)).map
        (fun L =>
          { content := (tokens.drop start).take 512, token_count := 512,
            start_token := start, end_token := start + 512,
            chunk_index := idx } :: L) := by
  have hmin : min (start + 512) tokens.length = start + 512 := by omega
  have hlen : ((tokens.drop start).take (start + 512 - start)).length = 512 := by
    simp; omega
  simp only [chunkLoop, hmin, hlen]
  rw [if_pos (by omega), if_neg (by omega)]
  have h462 : start + 512 - 50 = start + 462 := by omega
  have h512 : start + 512 - start = 512 := by omega
  rw [h462, h512]

/-- The loop characterization for the default configuration: from any
cursor `start < T` with at least `T - start` fuel, the loop returns a
nonempty chunk list whose head starts at `start`, whose windows obey
`end = min(start+512, T)` with token counts and contents matching,
where each subsequent chunk starts 50 tokens before its predecessor's
end, whose last chunk ends at `T`, and whose overlap-dropping
concatenation is exactly `tokens.drop start`. -/
theorem chunkLoop_spec (tokens : List Nat) :
    ∀ fuel start idx : Nat, start < tokens.length → tokens.length - start ≤ fuel →
    ∃ L : List Chunk,
      chunkLoop 512 50 tokens fuel start idx = some L ∧
      (∃ c0 t0, L = c0 :: t0 ∧ c0.start_token = start) ∧
      (∀ c ∈ L, c.end_token = min (c.start_token + 512) tokens.length ∧
        c.token_count = c.end_token - c.start_token ∧
        c.content = (tokens.drop c.start_token).take (c.end_token - c.start_token)) ∧
      L.Chain' (fun a b => b.start_token + 50 = a.end_token) ∧
      (∃ cl, L.getLast? = some cl ∧ cl.end_token = tokens.length) ∧
      glue 50 L = tokens.drop start := by
  intro fuel
  induction fuel with
  | zero => intro start idx h1 h2; omega
  | succ fuel ih =>
    intro start idx h1 h2
    by_cases he : start + 512 < tokens.length
    · -- the window ends strictly inside the sequence: emit and continue
      rw [chunkLoop_succ_step tokens fuel start idx he]
      obtain ⟨L', hL', ⟨c0, t0, hdec, hc0start⟩, hall, hchain, ⟨cl, hlast, hclend⟩, hglue⟩ :=
        ih (start + 462) (idx + 1) (by omega) (by omega)
      subst hdec
      rw [hL']
      simp only [Option.map_some']
      refine ⟨_, rfl, ⟨_, _, rfl, rfl⟩, ?_, ?_, ?_, ?_⟩
      · intro c hc
        rcases List.mem_cons.mp hc with hc | hc
        · subst hc
          refine ⟨?_, ?_, ?_⟩
          · show start + 512 = min (start + 512) tokens.length
            omega
          · show (512 : Nat) = start + 512 - start
            omega
          · show (tokens.drop start).take 512 =
              (tokens.drop start).take (start + 512 - start)
            rw [show start + 512 - start = 512 from by omega]
        · exact hall c hc
      · refine List.chain'_cons.mpr ⟨?_, hchain⟩
        show c0.start_token + 50 = start + 512
        omega
      · rw [List.getLast?_cons_cons]
        exact ⟨cl, hlast, hclend⟩
      · have hc0mem : c0 ∈ c0 :: t0 := List.mem_cons_self c0 t0
        obtain ⟨hc0end, hc0tc, hc0cont⟩ := hall c0 hc0mem
        have hc0len : 50 ≤ c0.content.length := by
          rw [hc0cont, List.length_take, List.length_drop, hc0end, hc0start]
          omega
        have htail : glueTail 50 (c0 :: t0) = (glue 50 (c0 :: t0)).drop 50 := by
          show c0.content.drop 50 ++ glueTail 50 t0 =
            (c0.content ++ glueTail 50 t0).drop 50
          rw [List.drop_append_of_le_length hc0len]
        show ((tokens.drop start).take 512) ++ glueTail 50 (c0 :: t0) = tokens.drop start
        rw [htail, hglue, List.drop_drop,
          show start + 462 + 50 = start + 512 from by omega,
          show tokens.drop (start + 512) = (tokens.drop start).drop 512 from
            (List.drop_drop 512 start tokens).symm,
          List.take_append_drop]
    · -- the window reaches the end: final chunk
      rw [chunkLoop_succ_final tokens fuel start idx h1 (by omega)]
      refine ⟨_, rfl, ⟨_, [], rfl, rfl⟩, ?_, ?_, ⟨_, List.getLast?_singleton _, rfl⟩, ?_⟩
      · intro c hc
        rcases List.mem_cons.mp hc with hc | hc
        · subst hc
          refine ⟨?_, rfl, ?_⟩
          · show tokens.length = min (start + 512) tokens.length
            omega
          · show tokens.drop start =
              (tokens.drop start).take (tokens.length - start)
            rw [List.take_of_length_le (by simp)]
        · simp at hc
      · exact List.chain'_singleton _
      · show tokens.drop start ++ glueTail 50 [] = tokens.drop start
        simp [glueTail]

end Chunking

/-- C3: for every nonempty token sequence (a text that is non-empty
after trimming encodes to at least one token), `chunk_text` with
chunk_size=512 and overlap=50 yields chunks whose windows tile the
sequence: the first chunk starts at token 0, each subsequent chunk
starts exactly 50 tokens before the previous chunk's `end_token`, each
chunk covers `min(512, remaining)` tokens (with `content` the matching
token slice), the last chunk's `end_token` is the total token count,
and concatenating the chunks' tokens while dropping each subsequent
chunk's 50-token overlap reconstructs the token sequence exactly. -/
theorem c3_chunking_tiles_tokens (tokens : List Nat) (h : tokens ≠ []) :
    ∃ L : List Chunking.Chunk,
      Chunking.chunk_text 512 50 tokens = some L ∧
      (∃ c0 t0, L = c0 :: t0 ∧ c0.start_token = 0) ∧
      (∀ c ∈ L, c.end_token = min (c.start_token + 512) tokens.length ∧
        c.token_count = min 512 (tokens.length - c.start_token) ∧
        c.content = (tokens.drop c.start_token).take (c.end_token - c.start_token)) ∧
      L.Chain' (fun a b => b.start_token + 50 = a.end_token) ∧
      (∃ cl, L.getLast? = some cl ∧ cl.end_token = tokens.length) ∧
      Chunking.glue 50 L = tokens := by
  have h1 : 0 < tokens.length := List.length_pos.mpr h
  obtain ⟨L, hL, hd, hall, hchain, hlast, hglue⟩ :=
    Chunking.chunkLoop_spec tokens (tokens.length + 1) 0 0 h1 (by omega)
  refine ⟨L, hL, hd, ?_, hchain, hlast, by simpa using hglue⟩
  intro c hc
  obtain ⟨h1c, h2c, h3c⟩ := hall c hc
  exact ⟨h1c, by omega, h3c⟩

/-- Witness for C3: the tiling property applied to the concrete
three-token sequence `[1, 2, 3]`. -/
theorem c3_chunking_tiles_tokens_witness :
    ∃ L : List Chunking.Chunk,
      Chunking.chunk_text 512 50 [1, 2, 3] = some L ∧
      (∃ c0 t0, L = c0 :: t0 ∧ c0.start_token = 0) ∧
      (∀ c ∈ L, c.end_token = min (c.start_token + 512) ([1, 2, 3] : List Nat).length ∧
        c.token_count = min 512 (([1, 2, 3] : List Nat).length - c.start_token) ∧
        c.content = (([1, 2, 3] : List Nat).drop c.start_token).take
          (c.end_token - c.start_token)) ∧
      L.Chain' (fun a b => b.start_token + 50 = a.end_token) ∧
      (∃ cl, L.getLast? = some cl ∧ cl.end_token = ([1, 2, 3] : List Nat).length) ∧
      Chunking.glue 50 L = [1, 2, 3] :=
  c3_chunking_tiles_tokens [1, 2, 3] (by decide)

/-- C4: `chunk_text` with the default 512/50 settings terminates for
every token sequence (the loop provably finishes within the fuel
bound); a sequence of exactly 512 tokens yields exactly 1 chunk; and a
sequence of 1,024 tokens yields more than 1 chunk. -/
theorem c4_chunking_termination :
    (∀ tokens : List Nat, ∃ L, Chunking.chunk_text 512 50 tokens = some L) ∧
    (∀ tokens : List Nat, tokens.length = 512 →
      ∃ L, Chunking.chunk_text 512 50 tokens = some L ∧ L.length = 1) ∧
    (∀ tokens : List Nat, tokens.length = 1024 →
      ∃ L, Chunking.chunk_text 512 50 tokens = some L ∧ 1 < L.length) := by
  refine ⟨?_, ?_, ?_⟩
  · intro tokens
    rcases Nat.eq_zero_or_pos tokens.length with h0 | hpos
    · have : tokens = [] := List.eq_nil_of_length_eq_zero h0
      subst this
      exact ⟨[], rfl⟩
    · obtain ⟨L, hL, -⟩ :=
        Chunking.chunkLoop_spec tokens (tokens.length + 1) 0 0 hpos (by omega)
      exact ⟨L, hL⟩
  · intro tokens h512
    have e := Chunking.chunkLoop_succ_final tokens 512 0 0 (by omega) (by omega)
    refine ⟨[{ content := tokens.drop 0, token_count := tokens.length - 0,
               start_token := 0, end_token := tokens.length, chunk_index := 0 }], ?_, rfl⟩
    show Chunking.chunkLoop 512 50 tokens (tokens.length + 1) 0 0 = _
    rw [h512]
    rw [h512] at e
    exact e
  · intro tokens h1024
    obtain ⟨L, hL, ⟨c0, t0, hdec, hc0start⟩, hall, hchain, ⟨cl, hlast, hclend⟩, hglue⟩ :=
      Chunking.chunkLoop_spec tokens (tokens.length + 1) 0 0 (by omega) (by omega)
    refine ⟨L, hL, ?_⟩
    subst hdec
    cases t0 with
    | cons c1 t1 => simp
    | nil =>
      exfalso
      have hc0end := (hall c0 (List.mem_cons_self c0 [])).1
      rw [List.getLast?_singleton] at hlast
      have : cl = c0 := by
        have := hlast
        simpa using this.symm
      subst this
      rw [hc0start, h1024] at hc0end
      rw [hc0end] at hclend
      omega

/-- Witness for C4: termination on a concrete two-token sequence, one
chunk from 512 concrete tokens, more than one from 1,024. -/
theorem c4_chunking_termination_witness :
    (∃ L, Chunking.chunk_text 512 50 [1, 2] = some L) ∧
    (∃ L, Chunking.chunk_text 512 50 (List.replicate 512 7) = some L ∧ L.length = 1) ∧
    (∃ L, Chunking.chunk_text 512 50 (List.replicate 1024 7) = some L ∧ 1 < L.length) :=
  ⟨c4_chunking_termination.1 [1, 2],
   c4_chunking_termination.2.1 (List.replicate 512 7) (by rw [List.length_replicate]),
   c4_chunking_termination.2.2 (List.replicate 1024 7) (by rw [List.length_replicate])⟩

end ContextOS
